import Mathlib

/-!
# Verification of the TextWave SMS SDK client

Shallow embedding of `src/index.ts` of `textwave-sdk-js`: a JSON value
type modelling what `JSON.parse` / `JSON.stringify` operate on, the
`TextWave` client object (API key + base URL), its constructor, the shared
`request` routine's response handling, and the four public operations'
request construction (`sendSms`, `getHistory`, `getBalance`,
`getTransactions`).  JavaScript truthiness (used by the source in
`if (!apiKey)`, `if (senderId)`, `if (options.page)`, `data.message ||`)
is modelled explicitly.
-/

namespace TextWaveSDK

/-- JSON values, as produced by `JSON.parse`.  Numbers are modelled as
integers (every value exercised by the SDK's contract is integral);
objects are ordered field lists, matching JS insertion order, which
`JSON.stringify` preserves. -/
inductive Json where
  | null : Json
  | bool : Bool → Json
  | num : Int → Json
  | str : String → Json
  | arr : List Json → Json
  | obj : List (String × Json) → Json
deriving Repr

/-- JS property access `v.k`: it throws a `TypeError` when the value is
`null` (the one non-object `JSON.parse` result on which access throws);
on an object it yields the first field with the key, `undefined`
(`Except.ok none`) when there is none; on the remaining primitives and
arrays it yields `undefined` (boxing: no such own property). -/
def Json.getProp : Json → String → Except String (Option Json)
  | .null, _ => .error "TypeError: Cannot read properties of null"
  | .obj fields, k => .ok ((fields.find? (fun p => p.1 = k)).map Prod.snd)
  | _, _ => .ok none

/-- JS truthiness of a value. -/
def Json.truthy : Json → Bool
  | .null => false
  | .bool b => b
  | .num n => n != 0
  | .str s => s != ""
  | .arr _ => true
  | .obj _ => true

/-- JS `String(v)` coercion, as applied by the `Error` constructor to a
non-undefined argument. -/
def Json.jsToString : Json → String
  | .null => "null"
  | .bool b => if b then "true" else "false"
  | .num n => toString n
  | .str s => s
  | .arr xs => String.intercalate "," (xs.attach.map (fun x =>
      match x with
      | ⟨.null, _⟩ => ""
      | ⟨v, _⟩ => v.jsToString))
  | .obj _ => "[object Object]"
decreasing_by
  simp_wf
  rename_i hmem
  have := List.sizeOf_lt_of_mem hmem
  omega

/-- The error thrown by the shared request routine: an `Error` whose
message comes from the body, decorated with `code` (possibly `undefined`)
and the HTTP `status`. -/
structure TextWaveError where
  message : String
  code : Option Json
  status : Nat
deriving Repr

/-- The client object: `private apiKey` and `private baseUrl`. -/
structure TextWave where
  apiKey : String
  baseUrl : String
deriving Repr

/-- Drop one leading slash character from a character list. -/
def dropLeadingSlash : List Char → List Char
  | [] => []
  | c :: rest => if c = '/' then rest else c :: rest

/-- The regex replacement of the constructor: remove one trailing `'/'`
from the string when present (the pattern is anchored at the end and
`String.prototype.replace` with a non-global regex replaces at most one
match). -/
def removeTrailingSlash (s : String) : String :=
  ⟨(dropLeadingSlash s.data.reverse).reverse⟩

/-- The default base URL of the constructor. -/
def defaultBaseUrl : String := "https://api.textwave.co.ke/v1"

/-- The `TextWave` constructor: throws (`Except.error`) when the API key
is falsy (the empty string, for strings), otherwise stores the key and
the base URL with a trailing slash removed. -/
def TextWave.make (apiKey : String)
    (baseUrl : String := defaultBaseUrl) : Except String TextWave :=
  if apiKey = "" then
    .error "API key is required. Get one at https://textwave.co.ke"
  else
    .ok { apiKey := apiKey, baseUrl := removeTrailingSlash baseUrl }

/-- What the failure branch of the request routine throws: either the
structured `TextWaveError` it builds, or the `TypeError` raised by the
property access `data.message` itself when the parsed body is `null`
(that exception propagates with no `status` or `code` attached). -/
inductive RequestFailure where
  | api : TextWaveError → RequestFailure
  | typeError : String → RequestFailure
deriving Repr

/-- Response handling of the private `request` routine, after
`data = await response.json()`: on `response.ok` (status 200–299) return
`data` unchanged; otherwise build and throw an error with message
`data.message || 'API request failed'`, `code = data.code`, and the HTTP
status — evaluating `data.message` first, then `data.code`, so a `null`
body makes the property access itself throw a `TypeError`. -/
def handleResponse (status : Nat) (data : Json) : Except RequestFailure Json :=
  if 200 ≤ status ∧ status < 300 then
    .ok data
  else
    match data.getProp "message" with
    | .error e => .error (.typeError e)
    | .ok m =>
      match data.getProp "code" with
      | .error e => .error (.typeError e)
      | .ok c =>
        .error (.api
          { message :=
              match m with
              | some v => if v.truthy then v.jsToString else "API request failed"
              | none => "API request failed"
            code := c
            status := status })

/-- A request issued through `fetch`, as the SDK constructs it: the
method, the endpoint path (query string included) appended to the base
URL, and the serialized JSON body when one is supplied. -/
structure HttpRequest where
  method : String
  path : String
  body : Option Json
deriving Repr

/-- The full URL the `request` routine passes to `fetch`. -/
def TextWave.urlOf (c : TextWave) (r : HttpRequest) : String :=
  c.baseUrl ++ r.path

/-- The `to` argument of `sendSms`: one phone number or a sequence. -/
inductive Recipients where
  | one : String → Recipients
  | many : List String → Recipients
deriving Repr

/-- The JSON shape of the `to` field in the request body. -/
def Recipients.toJson : Recipients → Json
  | .one s => .str s
  | .many l => .arr (l.map Json.str)

/-- The `senderId` field of the `sendSms` body: present exactly when the
`senderId` argument is supplied and truthy (`if (senderId)`). -/
def senderIdField : Option String → List (String × Json)
  | some s => if s = "" then [] else [("senderId", Json.str s)]
  | none => []

/-- `sendSms(to, message, senderId?)`: POST `/sms/send` with body
`{to, message}` plus `senderId` when truthy. -/
def TextWave.sendSms (recipients : Recipients) (message : String)
    (senderId : Option String := none) : HttpRequest :=
  { method := "POST"
    path := "/sms/send"
    body := some (.obj ([("to", recipients.toJson), ("message", .str message)]
                        ++ senderIdField senderId)) }

/-- The status filter enumeration of `getHistory`. -/
inductive MsgStatus where
  | sent | delivered | failed | pending
deriving Repr, DecidableEq

def MsgStatus.toString : MsgStatus → String
  | .sent => "sent"
  | .delivered => "delivered"
  | .failed => "failed"
  | .pending => "pending"

/-- The options record of `getHistory`.  `page` and `limit` are JS
numbers (modelled integral); each field may be absent. -/
structure HistoryOptions where
  page : Option Int := none
  limit : Option Int := none
  status : Option MsgStatus := none
deriving Repr

/-- The `URLSearchParams` contents `getHistory` builds: `page`, `limit`
and `status` are each set exactly when supplied and truthy
(`if (options.page)` etc.; `0` is falsy, every status literal truthy). -/
def historyParams (o : HistoryOptions) : List (String × String) :=
  (match o.page with
   | some p => if p ≠ 0 then [("page", toString p)] else []
   | none => []) ++
  (match o.limit with
   | some l => if l ≠ 0 then [("limit", toString l)] else []
   | none => []) ++
  (match o.status with
   | some s => [("status", s.toString)]
   | none => [])

/-- `URLSearchParams.toString()` over the parameter list (all values the
SDK produces are URL-safe, so percent-encoding is the identity). -/
def paramsToString (ps : List (String × String)) : String :=
  String.intercalate "&" (ps.map (fun p => p.1 ++ "=" ++ p.2))

/-- `getHistory(options = {})`: GET `/sms/history`, with `?` plus the
serialized params exactly when the param list is nonempty. -/
def TextWave.getHistory (options : HistoryOptions := {}) : HttpRequest :=
  { method := "GET"
    path := "/sms/history" ++
      (if historyParams options ≠ [] then
        "?" ++ paramsToString (historyParams options)
      else "")
    body := none }

/-- `getBalance()`: GET `/wallet/balance`. -/
def TextWave.getBalance : HttpRequest :=
  { method := "GET", path := "/wallet/balance", body := none }

/-- `getTransactions(page = 1, limit = 20)`: GET
`/wallet/transactions?page=<page>&limit=<limit>`. -/
def TextWave.getTransactions (page : Int := 1) (limit : Int := 20) : HttpRequest :=
  { method := "GET"
    path := "/wallet/transactions?page=" ++ toString page
            ++ "&limit=" ++ toString limit
    body := none }

/-- A complete round trip of one public operation: the request is built
from the client, the response is handled, and the client object itself is
never written to (the source assigns to `this.apiKey` / `this.baseUrl`
only in the constructor), so the post-state is the input client. -/
def TextWave.run (c : TextWave) (r : HttpRequest) (status : Nat)
    (data : Json) : TextWave × HttpRequest × Except RequestFailure Json :=
  (c, r, handleResponse status data)

/-- Property access on any parsed body other than `null` succeeds. -/
theorem Json.getProp_ok_of_ne_null (d : Json) (k : String) (h : d ≠ .null) :
    ∃ o, d.getProp k = .ok o := by
  cases d with
  | null => exact absurd rfl h
  | bool b => exact ⟨none, rfl⟩
  | num n => exact ⟨none, rfl⟩
  | str s => exact ⟨none, rfl⟩
  | arr xs => exact ⟨none, rfl⟩
  | obj fields => exact ⟨_, rfl⟩

/-- C1 counterexample: at status 500 with parsed body `null` the routine
throws the `TypeError` raised by `data.message`, not an error carrying
the HTTP status and the body's code — refuting the claim for that
response. -/
theorem C1_counterexample_null_body :
    handleResponse 500 Json.null =
      .error (.typeError "TypeError: Cannot read properties of null") := rfl

/-- C1 (amended): the shared request routine returns the JSON-parsed body
unchanged on a success-range status; on any other status, when the parsed
body is not `null`, it throws an error whose `status` is the HTTP status
and whose `code` equals the body's `code` field when present (a `null`
body instead makes the `data.message` access throw a `TypeError` with no
status or code); in particular a 401 response with body
`{code:"UNAUTHORIZED", message:"Invalid API key"}` yields an error with
code `"UNAUTHORIZED"`, message `"Invalid API key"` and status 401. -/
theorem C1_request_response_contract :
    (∀ (status : Nat) (data : Json), 200 ≤ status → status < 300 →
        handleResponse status data = .ok data) ∧
    (∀ (status : Nat) (data : Json), status < 200 ∨ 300 ≤ status →
        data ≠ .null →
        ∃ e : TextWaveError, handleResponse status data = .error (.api e) ∧
          e.status = status ∧
          ∀ c, data.getProp "code" = .ok (some c) → e.code = some c) ∧
    handleResponse 401
        (.obj [("code", .str "UNAUTHORIZED"), ("message", .str "Invalid API key")]) =
      .error (.api { message := "Invalid API key"
                     code := some (.str "UNAUTHORIZED")
                     status := 401 }) := by
  refine ⟨?_, ?_, ?_⟩
  · intro status data h1 h2
    rw [handleResponse, if_pos ⟨h1, h2⟩]
  · intro status data h hnn
    obtain ⟨m, hm⟩ := data.getProp_ok_of_ne_null "message" hnn
    obtain ⟨c, hc⟩ := data.getProp_ok_of_ne_null "code" hnn
    rw [handleResponse, if_neg (by omega), hm, hc]
    refine ⟨_, rfl, rfl, fun c' hc' => ?_⟩
    simpa using hc'
  · rw [handleResponse, if_neg (by omega)]
    simp [Json.getProp, Json.truthy, Json.jsToString, List.find?]

/-- Witness for C1 at concrete inputs, both branches. -/
theorem C1_request_response_contract_witness :
    handleResponse 204 (Json.str "payload") = .ok (Json.str "payload") ∧
    ∃ e : TextWaveError,
      handleResponse 404 (Json.obj [("code", Json.str "NOT_FOUND")]) =
          .error (.api e) ∧
        e.status = 404 ∧
        ∀ c, (Json.obj [("code", Json.str "NOT_FOUND")]).getProp "code"
            = .ok (some c) → e.code = some c :=
  ⟨C1_request_response_contract.1 204 (Json.str "payload") (by decide) (by decide),
   C1_request_response_contract.2.1 404 (Json.obj [("code", Json.str "NOT_FOUND")])
     (Or.inr (by decide)) (by simp)⟩

/-- C2: constructing the client with an empty credential throws
synchronously; any non-empty credential succeeds and is stored. -/
theorem C2_constructor_credential :
    (∀ baseUrl, TextWave.make "" baseUrl =
        .error "API key is required. Get one at https://textwave.co.ke") ∧
    (∀ apiKey baseUrl, apiKey ≠ "" →
        ∃ c, TextWave.make apiKey baseUrl = .ok c ∧ c.apiKey = apiKey) := by
  refine ⟨fun baseUrl => rfl, fun apiKey baseUrl h => ?_⟩
  exact ⟨_, by rw [TextWave.make, if_neg h], rfl⟩

/-- Witness for C2 at a concrete non-empty credential. -/
theorem C2_constructor_credential_witness :
    ∃ c, TextWave.make "tw_key" defaultBaseUrl = .ok c ∧ c.apiKey = "tw_key" :=
  C2_constructor_credential.2 "tw_key" defaultBaseUrl (by decide)

/-- C4: with no `senderId` argument the `sendSms` body has exactly the
fields `to` and `message`; the `senderId` key is entirely absent. -/
theorem C4_sendSms_omits_senderId :
    ∀ (r : Recipients) (m : String),
      ∃ fields, (TextWave.sendSms r m).body = some (.obj fields) ∧
        fields.map Prod.fst = ["to", "message"] ∧
        (Json.obj fields).getProp "senderId" = .ok none := by
  intro r m
  refine ⟨[("to", r.toJson), ("message", .str m)], rfl, rfl, ?_⟩
  simp [Json.getProp]

/-- C5: `sendSms` on a single string and on the one-element list
containing it build identical requests except for the shape of `to`. -/
theorem C5_single_vs_singleton :
    ∀ (s m : String) (sid : Option String),
      (TextWave.sendSms (.one s) m sid).method
          = (TextWave.sendSms (.many [s]) m sid).method ∧
      (TextWave.sendSms (.one s) m sid).path
          = (TextWave.sendSms (.many [s]) m sid).path ∧
      ∃ rest,
        (TextWave.sendSms (.one s) m sid).body
            = some (.obj (("to", .str s) :: rest)) ∧
        (TextWave.sendSms (.many [s]) m sid).body
            = some (.obj (("to", .arr [.str s]) :: rest)) :=
  fun _ m sid => ⟨rfl, rfl, ("message", .str m) :: senderIdField sid, rfl, rfl⟩

/-- C3 counterexample: the option record `{page: 0}` supplies the `page`
parameter (0 is a value of the declared number type), yet the issued
request carries no query string at all — `if (options.page)` is false at
0 — so the query does not contain exactly the supplied parameters. -/
theorem C3_counterexample_page_zero :
    ({ page := some 0 } : HistoryOptions).page = some 0 ∧
    historyParams { page := some 0 } = [] ∧
    TextWave.getHistory { page := some 0 } =
      { method := "GET", path := "/sms/history", body := none } :=
  ⟨rfl, rfl, rfl⟩

/-- C3 (amended): the query of the issued request contains exactly the
parameters supplied with truthy values — `page` and `limit` only when
nonzero, `status` whenever supplied — and no others; `getHistory({})`
issues a request with no query string, and
`getHistory({page:2, limit:50, status:'delivered'})` issues the query
`page=2&limit=50&status=delivered`. -/
theorem C3_history_query_exact :
    (∀ (o : HistoryOptions) (k v : String),
        (k, v) ∈ historyParams o ↔
          (∃ p : Int, o.page = some p ∧ p ≠ 0 ∧ k = "page" ∧ v = toString p) ∨
          (∃ l : Int, o.limit = some l ∧ l ≠ 0 ∧ k = "limit" ∧ v = toString l) ∨
          (∃ s, o.status = some s ∧ k = "status" ∧ v = s.toString)) ∧
    (TextWave.getHistory : HttpRequest) =
      { method := "GET", path := "/sms/history", body := none } ∧
    TextWave.getHistory
        { page := some 2, limit := some 50, status := some MsgStatus.delivered } =
      { method := "GET"
        path := "/sms/history?page=2&limit=50&status=delivered"
        body := none } := by
  refine ⟨?_, rfl, rfl⟩
  intro o k v
  obtain ⟨p, l, s⟩ := o
  rcases p with _ | p <;> rcases l with _ | l <;> rcases s with _ | s <;>
    simp only [historyParams] <;>
    first
      | (split_ifs <;> simp_all)
      | simp_all

/-- Witness for C3's characterization at a concrete options record. -/
theorem C3_history_query_exact_witness :
    ("page", "2") ∈
      historyParams
        { page := some 2, limit := some 50, status := some MsgStatus.delivered } :=
  (C3_history_query_exact.1
      { page := some 2, limit := some 50, status := some MsgStatus.delivered }
      "page" "2").mpr
    (Or.inl ⟨2, rfl, by decide, rfl, rfl⟩)

/-- C6: exactly one trailing `'/'` is removed from a supplied endpoint
override: any string ending in `'/'` loses that one character, a string
not ending in `'/'` is stored unchanged, and the three cited examples
hold through the constructor. -/
theorem C6_trailing_slash_stripped_once :
    (∀ l : List Char, removeTrailingSlash ⟨l ++ ['/']⟩ = ⟨l⟩) ∧
    (∀ s : String, s.data.getLast? ≠ some '/' → removeTrailingSlash s = s) ∧
    TextWave.make "k" "https://api.example.com/v1/" =
      .ok { apiKey := "k", baseUrl := "https://api.example.com/v1" } ∧
    TextWave.make "k" "/v1//" = .ok { apiKey := "k", baseUrl := "/v1/" } ∧
    TextWave.make "k" "https://api.example.com/v1" =
      .ok { apiKey := "k", baseUrl := "https://api.example.com/v1" } := by
  refine ⟨?_, ?_, rfl, rfl, rfl⟩
  · intro l
    simp [removeTrailingSlash, dropLeadingSlash]
  · intro s h
    obtain ⟨d⟩ := s
    cases hr : d.reverse with
    | nil =>
      have hd : d = [] := by simpa using congrArg List.reverse hr
      simp [removeTrailingSlash, dropLeadingSlash, hd]
    | cons c r =>
      have hc : c ≠ '/' := by
        intro hcq
        apply h
        have : d.getLast? = some c := by
          rw [← List.head?_reverse, hr]
          rfl
        simpa [hcq] using this
      have hd : d = (c :: r).reverse := by simpa using congrArg List.reverse hr
      simp only [removeTrailingSlash, hr, dropLeadingSlash, if_neg hc]
      rw [hd]

/-- Witness for C6's unchanged case at a concrete slash-free string. -/
theorem C6_trailing_slash_stripped_once_witness :
    removeTrailingSlash "https://api.example.com/v1" = "https://api.example.com/v1" :=
  C6_trailing_slash_stripped_once.2.1 "https://api.example.com/v1" (by decide)

/-- C7: `getTransactions` requests
`/wallet/transactions?page=<p>&limit=<l>` with page defaulting to 1 and
limit to 20, so the no-argument call requests `page=1&limit=20`. -/
theorem C7_getTransactions_defaults :
    (TextWave.getTransactions : HttpRequest) =
      { method := "GET"
        path := "/wallet/transactions?page=1&limit=20"
        body := none } ∧
    ∀ (p l : Int), TextWave.getTransactions p l =
      { method := "GET"
        path := "/wallet/transactions?page=" ++ toString p
                ++ "&limit=" ++ toString l
        body := none } :=
  ⟨rfl, fun _ _ => rfl⟩

/-- C8: no public operation writes the credential or the base endpoint:
a full round trip of each operation (request construction plus response
handling, whether the outcome is a value or a thrown error) leaves the
client object exactly as constructed. -/
theorem C8_fields_immutable :
    ∀ (c : TextWave) (r : Recipients) (m : String) (sid : Option String)
      (o : HistoryOptions) (p l : Int) (status : Nat) (data : Json),
      (c.run (TextWave.sendSms r m sid) status data).1 = c ∧
      (c.run (TextWave.getHistory o) status data).1 = c ∧
      (c.run TextWave.getBalance status data).1 = c ∧
      (c.run (TextWave.getTransactions p l) status data).1 = c :=
  fun _ _ _ _ _ _ _ _ _ => ⟨rfl, rfl, rfl, rfl⟩

/-- C10 counterexample: a 404 response with parsed body `null` — a body
lacking a `message` field — makes the `data.message` access throw a
`TypeError`, not the fixed-message error carrying the HTTP status. -/
theorem C10_counterexample_null_body :
    handleResponse 404 Json.null =
      .error (.typeError "TypeError: Cannot read properties of null") := rfl

/-- C10 (amended): a non-success response whose non-`null` body has no
`message` field, or an empty-string one, yields an error with the fixed
message "API request failed", the body's `code` field (possibly absent),
and the HTTP status; a `null` body instead has the property access throw
a `TypeError`. -/
theorem C10_default_error_message :
    ∀ (status : Nat) (data : Json), status < 200 ∨ 300 ≤ status →
      data.getProp "message" = .ok none ∨
        data.getProp "message" = .ok (some (.str "")) →
      ∃ o, data.getProp "code" = .ok o ∧
        handleResponse status data =
          .error (.api { message := "API request failed"
                         code := o
                         status := status }) := by
  intro status data h hm
  have hnn : data ≠ .null := by
    rintro rfl
    rcases hm with hm | hm <;> simp [Json.getProp] at hm
  obtain ⟨c, hc⟩ := data.getProp_ok_of_ne_null "code" hnn
  refine ⟨c, hc, ?_⟩
  rw [handleResponse, if_neg (by omega)]
  rcases hm with hm | hm
  · rw [hm, hc]
  · rw [hm, hc]
    simp [Json.truthy]

/-- Witness for C10 at a concrete 402 response lacking `message`. -/
theorem C10_default_error_message_witness :
    ∃ o, (Json.obj [("code", Json.str "INSUFFICIENT_CREDITS")]).getProp "code"
        = .ok o ∧
      handleResponse 402 (Json.obj [("code", Json.str "INSUFFICIENT_CREDITS")]) =
        .error (.api { message := "API request failed"
                       code := o
                       status := 402 }) :=
  C10_default_error_message 402 (Json.obj [("code", Json.str "INSUFFICIENT_CREDITS")])
    (Or.inr (by decide)) (Or.inl rfl)

/-- C9: an empty-string sender label is treated exactly like an absent
one: the two calls build the same request. -/
theorem C9_empty_senderId_like_absent :
    ∀ (r : Recipients) (m : String),
      TextWave.sendSms r m (some "") = TextWave.sendSms r m none :=
  fun _ _ => rfl

end TextWaveSDK
